import Mathlib

/-!
Verification of the scope/closure resolution and call-optimization core of the
Nuitka excerpt (src/nuitka/nodes/FunctionNodes.py and
src/nuitka/tree/ReformulationFunctionStatements.py), as a shallow embedding.
Definitions are translated from the source; parts of the repository that the
excerpt only imports are modelled from the specification and marked as such.
-/

namespace Nuitka

/-- Compile-time constants carried by `ExpressionConstantRef` nodes; only the
shapes the excerpt inspects (`None`, the empty dict `{}`, tuples of scalar
constants) plus generic payloads are modelled. -/
inductive NConst where
  | noneC
  | emptyDict
  | intC (n : Int)
  | strC (s : String)
  | tupleC (elems : List Int)
deriving DecidableEq, Repr

/-- Expression nodes, covering exactly the queries the embedded functions make:
constant references, literal tuple construction, an expression statically known
to always raise (`willRaiseException`), an otherwise unknown expression with
observable side effects, and the `ExpressionSideEffects` wrapper produced by
`wrapExpressionWithSideEffects`. -/
inductive NExpr where
  | constantRef (c : NConst)
  | makeTuple (elems : List NExpr)
  | effectful (id : Nat)
  | raising (id : Nat)
  | withSideEffects (side_effects : List NExpr) (expression : NExpr)

/-- The `willRaiseException(BaseException)` query: true when the expression is
statically known to always raise. -/
def NExpr.willRaiseException : NExpr → Bool
  | .raising _ => true
  | .withSideEffects _ e => e.willRaiseException
  | _ => false

/-- The `mayHaveSideEffects` query on expression nodes. -/
def NExpr.mayHaveSideEffects : NExpr → Bool
  | .constantRef _ => false
  | .makeTuple [] => false
  | .makeTuple (e :: es) => e.mayHaveSideEffects || (NExpr.makeTuple es).mayHaveSideEffects
  | .effectful _ => true
  | .raising _ => true
  | .withSideEffects _ _ => true

def NExpr.isExpressionConstantRef : NExpr → Bool
  | .constantRef _ => true
  | _ => false

def NExpr.getConstant : NExpr → Option NConst
  | .constantRef c => some c
  | _ => none

def NExpr.isExpressionMakeTuple : NExpr → Bool
  | .makeTuple _ => true
  | _ => false

/-- `getIterationValues` of a literal tuple node or a constant tuple. -/
def NExpr.getIterationValues : NExpr → List NExpr
  | .constantRef (.tupleC cs) => cs.map (fun n => NExpr.constantRef (NConst.intC n))
  | .makeTuple es => es
  | _ => []

/-- Modelled from the spec: `wrapExpressionWithSideEffects` from
`nuitka.nodes.NodeMakingHelpers` (not part of the excerpt). Per the spec the
rewrite "evaluate the side effects of everything strictly before it, then
raise" keeps exactly the given side-effect expressions in front of the new
node; an empty list wraps nothing. The `old_node` argument of the original
only supplies a source position and is omitted. -/
def wrapExpressionWithSideEffects (side_effects : List NExpr) (new_node : NExpr) : NExpr :=
  if side_effects.isEmpty then new_node
  else .withSideEffects side_effects new_node

/-- `ParameterSpec` (declared in `nuitka.nodes.ParameterSpecs`, used throughout
the excerpt): ordered positional names, keyword-only names, optional star-list
and star-dict catch-all names, and the count of trailing positional defaults. -/
structure ParameterSpec where
  name : String
  normal_args : List String
  kw_only_args : List String
  list_star_arg : Option String
  dict_star_arg : Option String
  default_count : Nat
deriving DecidableEq, Repr

def ParameterSpec.getArgumentNames (s : ParameterSpec) : List String :=
  s.normal_args

def ParameterSpec.getStarListArgumentName (s : ParameterSpec) : Option String :=
  s.list_star_arg

def ParameterSpec.getStarDictArgumentName (s : ParameterSpec) : Option String :=
  s.dict_star_arg

def ParameterSpec.getDefaultCount (s : ParameterSpec) : Nat :=
  s.default_count

def ParameterSpec.getKwOnlyParameterNames (s : ParameterSpec) : List String :=
  s.kw_only_args

/-- Modelled from the spec: `getAllNames` lists every declared parameter in
declared order — "ordered positional names, keyword-only names, optional
list/dict catch-all names". -/
def ParameterSpec.getAllNames (s : ParameterSpec) : List String :=
  s.normal_args ++ s.kw_only_args ++ s.list_star_arg.toList ++ s.dict_star_arg.toList

/-- The four body kinds of the excerpt: `ExpressionFunctionBody` (plain),
`ExpressionGeneratorFunctionBody`, `ExpressionClassBody`,
`ExpressionCoroutineBody`. -/
inductive BodyKind where
  | functionBody
  | generatorBody
  | classBody
  | coroutineBody
deriving DecidableEq, Repr

/-- A function body as seen by the call-site optimizer: its name, kind,
parameter spec, and whether `mayRaiseException(BaseException)` holds of its
statement body. -/
structure FunctionBody where
  name : String
  kind : BodyKind
  parameters : ParameterSpec
  body_may_raise : Bool
deriving DecidableEq, Repr

def FunctionBody.isGenerator (b : FunctionBody) : Bool :=
  b.kind = BodyKind.generatorBody

def FunctionBody.isExpressionClassBody (b : FunctionBody) : Bool :=
  b.kind = BodyKind.classBody

/-- `function_body.mayRaiseException(BaseException)` as used by the optimizer. -/
def FunctionBody.mayRaiseException (b : FunctionBody) : Bool :=
  b.body_may_raise

/-- `convertNoneConstantOrEmptyDictToNone`, the checker applied to the
`kw_defaults` child (FunctionNodes.py lines 583-591). -/
def convertNoneConstantOrEmptyDictToNone (node : Option NExpr) : Option NExpr :=
  match node with
  | none => none
  | some n =>
      if n.isExpressionConstantRef = true ∧ n.getConstant = some NConst.noneC then none
      else if n.isExpressionConstantRef = true ∧ n.getConstant = some NConst.emptyDict then none
      else some n

/-- `ExpressionFunctionCreation`: the deferred-binding expression pairing a
function reference (here flattened to the referenced `FunctionBody`) with its
defaults, keyword-defaults and annotations sub-expressions. `kw_defaults` is
the value after the `convertNoneConstantOrEmptyDictToNone` checker ran. -/
structure ExpressionFunctionCreation where
  function_body : FunctionBody
  defaults : List NExpr
  kw_defaults : Option NExpr
  annotations : Option NExpr

def ExpressionFunctionCreation.getName (self : ExpressionFunctionCreation) : String :=
  self.function_body.name

/-- Result of `ExpressionFunctionCreation.computeExpression`: either the
expression unchanged (`return self, None, None`) or a "new_raise" rewrite to
the given replacement node. The textual descriptions of the source are kept in
comments only. -/
inductive ComputeResult where
  | unchanged
  | newRaise (result : NExpr)

/-- The `for default in defaults` loop of `computeExpression` (FunctionNodes.py
lines 646-654): returns the wrapped replacement at the first default statically
known to raise. Note that the loop threads `side_effects` through unchanged —
the source never appends already-scanned defaults to it. -/
def scanDefaultsForRaise (side_effects : List NExpr) : List NExpr → Option NExpr
  | [] => none
  | d :: rest =>
      if d.willRaiseException then some (wrapExpressionWithSideEffects side_effects d)
      else scanDefaultsForRaise side_effects rest

/-- The annotations check at the tail of `computeExpression` (FunctionNodes.py
lines 670-682). -/
def annotationsComputeCheck (annotations : Option NExpr) (side_effects : List NExpr) :
    ComputeResult :=
  match annotations with
  | some ann =>
      if ann.willRaiseException then
        -- description: "Annotation values contain raise."
        ComputeResult.newRaise (wrapExpressionWithSideEffects side_effects ann)
      else ComputeResult.unchanged
  | none => ComputeResult.unchanged

/-- `ExpressionFunctionCreation.computeExpression` (FunctionNodes.py lines
641-682): scan positional defaults for a statically-raising one, then the
keyword-defaults, then the annotations; only a passing keyword-defaults
expression is ever appended to the accumulated side effects. -/
def ExpressionFunctionCreation.computeExpression (self : ExpressionFunctionCreation) :
    ComputeResult :=
  let side_effects : List NExpr := []
  match scanDefaultsForRaise side_effects self.defaults with
  | some result =>
      -- description: "Default value contains raise."
      ComputeResult.newRaise result
  | none =>
      match self.kw_defaults with
      | some kw_defaults =>
          if kw_defaults.willRaiseException then
            -- description: "Keyword default values contain raise."
            ComputeResult.newRaise (wrapExpressionWithSideEffects side_effects kw_defaults)
          else
            annotationsComputeCheck self.annotations (side_effects ++ [kw_defaults])
      | none => annotationsComputeCheck self.annotations side_effects

/-- The `TooManyArguments` exception raised by `matchCall`; per the error
taxonomy of the spec it covers the call-shape mismatches ("TooManyArguments
and equivalents"). -/
inductive TooManyArguments where
  | tooManyPositional
  | tooFewArguments
deriving DecidableEq, Repr

/-- The value matched for one declared parameter: a call argument expression,
the parameter's declared default, the star-list catch-all tuple, or the empty
star-dict catch-all. -/
inductive MatchedValue where
  | argValue (e : NExpr)
  | defaultValue
  | starListValue (es : List NExpr)
  | starDictValue

/-- Modelled from the spec: `matchCall` from `nuitka.nodes.ParameterSpecs`
(not part of the excerpt). "Positional arguments are matched against the
callee's ParameterSpec using a function that also accounts for catch-all
list/dict parameters and default count. Two outcomes: a full binding
{paramName → valueExpr} for every declared parameter, or a TooManyArguments
failure." A parameter that falls back on its default is bound to
`MatchedValue.defaultValue` (the spec example binds `c` to `<default>`);
keyword-only parameters are not in `args` and take their keyword defaults,
which the caller supplies through the lookup fallback. The excerpt calls this
with `pairs = ()`, so no keyword pairs are modelled. -/
def matchCall (func_name : String) (args : List String)
    (star_list_arg star_dict_arg : Option String) (num_defaults : Nat)
    (positional : List NExpr) :
    Except TooManyArguments (List (String × MatchedValue)) :=
  if positional.length > args.length ∧ star_list_arg = none then
    Except.error TooManyArguments.tooManyPositional
  else if positional.length + num_defaults < args.length then
    Except.error TooManyArguments.tooFewArguments
  else
    Except.ok (
      (args.enum.map (fun p =>
        (p.2, match positional[p.1]? with
              | some v => MatchedValue.argValue v
              | none => MatchedValue.defaultValue)))
      ++ (match star_list_arg with
          | some nm => [(nm, MatchedValue.starListValue (positional.drop args.length))]
          | none => [])
      ++ (match star_dict_arg with
          | some nm => [(nm, MatchedValue.starDictValue)]
          | none => []))

/-- Modelled from the spec: `extractPreCallSideEffects` of the call node (not
part of the excerpt): the failure rewrite evaluates "all side effects of the
original call's argument expressions", i.e. the positional argument
expressions of the call. -/
def extractPreCallSideEffects (call_args : Option NExpr) : List NExpr :=
  match call_args with
  | none => []
  | some a => a.getIterationValues

/-- Outcome of `ExpressionFunctionCreation.computeExpressionCall`: the call
node returned untouched, a direct-call rewrite (`ExpressionFunctionCall` with
the matched values), a guaranteed-raise rewrite preserving the given side
effects, or the `assert False` on an unexpected positional-argument shape. -/
inductive CallOutcome where
  | untouched
  | directCall (values : List MatchedValue)
  | raiseRewrite (side_effects : List NExpr) (error : TooManyArguments)
  | internalAbort

/-- The `try/except` tail of `computeExpressionCall` (FunctionNodes.py lines
739-787): match the extracted positional tuple against the callee's parameter
spec; on success build the direct-call values in `getAllNames` order, on
`TooManyArguments` rewrite to a raise preserving the pre-call side effects. -/
def matchAndRewrite (self : ExpressionFunctionCreation) (call_args : Option NExpr)
    (args_tuple : List NExpr) : CallOutcome :=
  match matchCall self.getName self.function_body.parameters.getArgumentNames
      self.function_body.parameters.getStarListArgumentName
      self.function_body.parameters.getStarDictArgumentName
      self.function_body.parameters.getDefaultCount args_tuple with
  | Except.ok args_dict =>
      -- description: "Replaced call to created function body ... with direct function call."
      CallOutcome.directCall
        (self.function_body.parameters.getAllNames.map
          (fun nm => (args_dict.lookup nm).getD MatchedValue.defaultValue))
  | Except.error e =>
      -- description: "Replaced call to created function body ... to argument error"
      CallOutcome.raiseRewrite (extractPreCallSideEffects call_args) e

/-- `ExpressionFunctionCreation.computeExpressionCall` (FunctionNodes.py lines
706-787). The `constraint_collection.onExceptionRaiseExit(BaseException)`
bookkeeping has no effect on the returned node and is not modelled. Note the
source's second `if call_kw is not None: return call_node` — any keyword
argument at all, even a provably empty constant dict, leaves the call
untouched; and a positional-arguments expression that is neither absent, a
constant reference, nor a literal tuple hits `assert False`. -/
def ExpressionFunctionCreation.computeExpressionCall (self : ExpressionFunctionCreation)
    (call_args call_kw : Option NExpr) : CallOutcome :=
  match call_kw with
  | some kw =>
      if kw.isExpressionConstantRef = false ∨ kw.getConstant ≠ some NConst.emptyDict then
        CallOutcome.untouched
      else
        CallOutcome.untouched
  | none =>
      match call_args with
      | none => matchAndRewrite self none []
      | some a =>
          if a.isExpressionConstantRef = true ∨ a.isExpressionMakeTuple = true then
            matchAndRewrite self (some a) a.getIterationValues
          else
            CallOutcome.internalAbort

/-- The argument-shape condition of the gate: positional arguments absent, a
constant reference, or a literal tuple. -/
def argsShapeOk : Option NExpr → Bool
  | none => true
  | some a => a.isExpressionConstantRef || a.isExpressionMakeTuple

/-- Whether an outcome proceeded to parameter matching (produced either a
direct call or a diagnostic raise rewrite). -/
def CallOutcome.proceeded : CallOutcome → Bool
  | .directCall _ => true
  | .raiseRewrite _ _ => true
  | _ => false

/-- `ExpressionFunctionCreation.getCallCost` (FunctionNodes.py lines 789-809).
`Options.isExperimental()` is passed in as `experimental`; the `values`
argument of the source is unused there (its own TODO notes this). -/
def ExpressionFunctionCreation.getCallCost (self : ExpressionFunctionCreation)
    (experimental : Bool) : Option Nat :=
  if experimental = false then none
  else
    if self.function_body.isGenerator then none
    else if self.function_body.isExpressionClassBody then none
    else if self.function_body.mayRaiseException then some 60
    else some 20

/-- The cost model exactly as the specification words it, for the refinement
against `getCallCost`: None when experimental mode is off; otherwise None for
generator bodies and class bodies, 60 when the callee body may statically
raise any exception, and 20 otherwise. -/
def callCostClaim (experimental : Bool) (body : FunctionBody) : Option Nat :=
  if experimental = false then none
  else if body.kind = BodyKind.generatorBody then none
  else if body.kind = BodyKind.classBody then none
  else if body.body_may_raise = true then some 60
  else some 20

/-- `ExpressionFunctionCall`: the shared direct-call node (FunctionNodes.py
lines 901-950), holding the creation and the matched argument values. -/
structure ExpressionFunctionCall where
  function : ExpressionFunctionCreation
  values : List NExpr

/-- Whether `ExpressionFunctionCall.computeExpression` replaced the call by an
inlined outline or returned it unchanged. -/
inductive InlineDecision where
  | inlinedOutline
  | unchangedCall
deriving DecidableEq, Repr

/-- `ExpressionFunctionCall.computeExpression` (FunctionNodes.py lines
928-947): compute the call cost and in-line (via `createOutlineFromCall`) iff
the cost is not None and strictly below 50. The `onExceptionRaiseExit`
bookkeeping does not affect the decision and is not modelled. -/
def ExpressionFunctionCall.computeExpression (self : ExpressionFunctionCall)
    (experimental : Bool) : InlineDecision :=
  match self.function.getCallCost experimental with
  | some cost => if cost < 50 then InlineDecision.inlinedOutline else InlineDecision.unchangedCall
  | none => InlineDecision.unchangedCall

/-- Modelled from the spec: a tree for the call-site optimization pass (the
tree walk and `convertFunctionCallToOutline` live outside the excerpt). A
`funcCall` node is a call whose callee is statically a creation expression;
`callee_body_tree` is the callee body's statement tree that inlining splices
in; `outline` is an inlined call site (bound argument plus spliced body),
which holds no further creation callee. -/
inductive OTree where
  | atom (id : Nat)
  | seq (a b : OTree)
  | funcCall (function : ExpressionFunctionCreation) (callee_body_tree : OTree) (arg : OTree)
  | outline (arg : OTree) (body : OTree)

/-- Modelled from the spec: one application of the call-site optimization
pass, bottom-up (children are optimized before the node itself; by the time a
call is rewritten, the callee body was already visited through its function
reference). A call is rewritten into an outline iff its call cost (from the
source's `getCallCost`) is not None and strictly below 50. -/
def optimizePass (experimental : Bool) : OTree → OTree
  | .atom i => .atom i
  | .seq a b => .seq (optimizePass experimental a) (optimizePass experimental b)
  | .outline arg body => .outline (optimizePass experimental arg) (optimizePass experimental body)
  | .funcCall f callee_body arg =>
      match f.getCallCost experimental with
      | some cost =>
          if cost < 50 then
            .outline (optimizePass experimental arg) (optimizePass experimental callee_body)
          else
            .funcCall f (optimizePass experimental callee_body) (optimizePass experimental arg)
      | none => .funcCall f (optimizePass experimental callee_body) (optimizePass experimental arg)

/-- Variables of `nuitka.Variables` as the excerpt queries them:
`ParameterVariable` is a local variable (the excerpt filters with
`isLocalVariable() and not isParameterVariable()`), `MaybeLocalVariable` wraps
another variable (`maybe_variable`) and is owned by the wrapping scope. Owners
are scope ids. -/
inductive MVar where
  | parameterVar (owner : Nat) (variable_name : String)
  | localVar (owner : Nat) (variable_name : String)
  | moduleVar (owner : Nat) (variable_name : String)
  | maybeLocalVar (owner : Nat) (maybe_variable : MVar)
deriving DecidableEq, Repr

def MVar.getName : MVar → String
  | .parameterVar _ n => n
  | .localVar _ n => n
  | .moduleVar _ n => n
  | .maybeLocalVar _ v => v.getName

def MVar.getOwner : MVar → Nat
  | .parameterVar o _ => o
  | .localVar o _ => o
  | .moduleVar o _ => o
  | .maybeLocalVar o _ => o

def MVar.isLocalVariable : MVar → Bool
  | .parameterVar _ _ => true
  | .localVar _ _ => true
  | _ => false

def MVar.isParameterVariable : MVar → Bool
  | .parameterVar _ _ => true
  | _ => false

def MVar.isModuleVariable : MVar → Bool
  | .moduleVar _ _ => true
  | _ => false

/-- Statements, covering what the reformulation helpers build: returns, plain
opaque-effect statements, `StatementReleaseVariable`, and the try/finally node
produced by `makeTryFinallyStatement`. -/
inductive Stmt where
  | statementReturn (expression : NExpr)
  | plainStatement (id : Nat)
  | statementReleaseVariable (released : MVar)
  | tryFinallyStatement (tried : List Stmt) (final : List Stmt)

/-- Modelled from the spec: `isStatementAborting` of a single statement (the
node classes live outside the excerpt). Return statements abort; plain and
release statements do not; compound statements are modelled conservatively as
non-aborting, which only means the builder may append a redundant return after
them. -/
def Stmt.isStatementAborting : Stmt → Bool
  | .statementReturn _ => true
  | .plainStatement _ => false
  | .statementReleaseVariable _ => false
  | .tryFinallyStatement _ _ => false

/-- Modelled from the spec: `isStatementAborting` of a statements sequence —
the sequence aborts iff its last statement does. -/
def seqIsAborting : List Stmt → Bool
  | [] => false
  | s :: rest => if rest.isEmpty then s.isStatementAborting else seqIsAborting rest

/-- A function body as `addFunctionVariableReleases` sees it: its scope id,
whether it `isGenerator()`, the `providing` map in insertion (declaration)
order, and its statement body. -/
structure FunctionScopeF where
  scope_id : Nat
  is_generator : Bool
  providing : List MVar
  body : List Stmt

/-- `getLocalVariables` (FunctionNodes.py lines 276-282): the provided
variables that are local variables, in `providing` order. -/
def FunctionScopeF.getLocalVariables (f : FunctionScopeF) : List MVar :=
  f.providing.filter MVar.isLocalVariable

/-- The collection loop of `addFunctionVariableReleases`
(ReformulationFunctionStatements.py lines 523-538): skip variables not owned
by this function ("shared variables are freed by function object attachment"),
and skip parameter variables of generators only ("generators have it attached
at creation and release it automatically when deleted"). -/
def releasesFor (function : FunctionScopeF) : List MVar :=
  function.getLocalVariables.filter (fun v =>
    (v.getOwner == function.scope_id) &&
    !(function.is_generator && v.isParameterVariable))

/-- Modelled from the spec: `makeTryFinallyStatement` from
`ReformulationTryFinallyStatements` (not part of the excerpt): a protected
region that runs `tried` and then runs `final` on every exit path — normal
completion, early return, or exception. -/
def makeTryFinallyStatement (tried : List Stmt) (final : List Stmt) : Stmt :=
  Stmt.tryFinallyStatement tried final

/-- `addFunctionVariableReleases` (ReformulationFunctionStatements.py lines
515-561): when the collected release list is non-empty, wrap the existing body
in a try/finally whose final part releases each collected variable, in
collection order. -/
def addFunctionVariableReleases (function : FunctionScopeF) : FunctionScopeF :=
  let releases := (releasesFor function).map Stmt.statementReleaseVariable
  if releases.isEmpty then function
  else { function with body := [makeTryFinallyStatement function.body releases] }

/-- A function scope as the closure-resolution methods see it: scope id, the
`isUnoptimized()` flag, the `providing` map in insertion order, and the
`taken` closure set (kept as a list to observe registration order). -/
structure FuncScopeData where
  scope_id : Nat
  unoptimized : Bool
  providing : List MVar
  taken : List MVar

/-- The lexical provider chain: a function scope over its provider, ending at
the module. Class bodies are not needed by the resolution claims and are not
modelled in the chain. -/
inductive ScopeChain where
  | moduleScope (module_id : Nat)
  | funcScope (data : FuncScopeData) (provider : ScopeChain)

def FuncScopeData.hasProvidedVariable (s : FuncScopeData) (variable_name : String) : Bool :=
  s.providing.any (fun v => v.getName == variable_name)

/-- `getProvidedVariable`: the provided variable of that name; the fallback (a
fresh local owned by this scope, mirroring `createProvidedVariable` with
`local_locals`) is never reached under a `hasProvidedVariable` guard. -/
def FuncScopeData.getProvidedVariable (s : FuncScopeData) (variable_name : String) : MVar :=
  ((s.providing.filter (fun v => v.getName == variable_name)).head?).getD
    (MVar.localVar s.scope_id variable_name)

def FuncScopeData.registerProvidedVariable (s : FuncScopeData) (v : MVar) : FuncScopeData :=
  { s with providing := s.providing ++ [v] }

/-- Modelled from the spec: the module scope's `getVariableForClosure` (the
module node class is not part of the excerpt) — "resolving a reference for a
name with no binding anywhere up to and including the module scope defaults to
ModuleGlobal". -/
def moduleVariableForClosure (module_id : Nat) (variable_name : String) : MVar :=
  MVar.moduleVar module_id variable_name

/-- `ExpressionFunctionBody.getVariableForClosure` (FunctionNodes.py lines
373-379) lifted over the provider chain: return the provided variable when
present, else delegate to the provider. The method performs no mutation, so
every scope it merely passes through is returned unchanged. -/
def getVariableForClosureChain (variable_name : String) : ScopeChain → MVar
  | .moduleScope mid => moduleVariableForClosure mid variable_name
  | .funcScope s p =>
      if s.hasProvidedVariable variable_name then s.getProvidedVariable variable_name
      else getVariableForClosureChain variable_name p

/-- Modelled from the spec: `ClosureTakerMixin.getClosureVariable` (not part
of the excerpt): delegate the search to the provider's
`getVariableForClosure` and record the found variable in the taker's own
`taken` set ("closure variables pulled from ancestors"), unless it is a module
variable. Only the taker itself is mutated. -/
def getClosureVariable (self : FuncScopeData) (provider : ScopeChain)
    (variable_name : String) : MVar × FuncScopeData :=
  let result := getVariableForClosureChain variable_name provider
  if result.isModuleVariable then (result, self)
  else (result, { self with taken := self.taken ++ [result] })

/-- `ExpressionFunctionBody.getVariableForReference` (FunctionNodes.py lines
345-371): locally provided wins; otherwise take the closure variable,
re-register it as provided when it is not a module variable, and inside an
unoptimized scope wrap a module variable into a `MaybeLocalVariable` owned by
this scope (also registered as provided). -/
def getVariableForReference (self : FuncScopeData) (provider : ScopeChain)
    (variable_name : String) : MVar × FuncScopeData :=
  if self.hasProvidedVariable variable_name then
    (self.getProvidedVariable variable_name, self)
  else
    let rp := getClosureVariable self provider variable_name
    let result := rp.1
    let self1 := rp.2
    let self2 :=
      if result.isModuleVariable = false then self1.registerProvidedVariable result else self1
    if self2.unoptimized = true ∧ result.isModuleVariable = true then
      let wrapped := MVar.maybeLocalVar self2.scope_id result
      (wrapped, self2.registerProvidedVariable wrapped)
    else
      (result, self2)

/-- Resolution of a reference at the innermost scope of a chain, returning the
resolved variable and the whole chain afterwards: only the innermost scope can
change, because `getVariableForClosure` (the only operation applied to the
ancestors) performs no mutation. -/
def resolveReferenceInChain (variable_name : String) : ScopeChain → MVar × ScopeChain
  | .moduleScope mid => (moduleVariableForClosure mid variable_name, .moduleScope mid)
  | .funcScope s p =>
      let r := getVariableForReference s p variable_name
      (r.1, .funcScope r.2 p)

/-- Provider chain for qualified names: the module, a class body of a given
function name, or any other function body of a given name, over its own
provider. Under both version gates of the source the provider consulted is the
creation-time provider, which is what the chain stores. -/
inductive QProvider where
  | compiledPythonModule
  | expressionClassBody (function_name : String) (provider : QProvider)
  | functionBody (function_name : String) (provider : QProvider)

/-- `ExpressionFunctionBodyBase.getFunctionQualname` (FunctionNodes.py lines
98-117): the own name at module level, dot-joined under a class body, and
joined with ".<locals>." under any other function body. -/
def getFunctionQualname (function_name : String) : QProvider → String
  | .compiledPythonModule => function_name
  | .expressionClassBody n p => getFunctionQualname n p ++ "." ++ function_name
  | .functionBody n p => getFunctionQualname n p ++ ".<locals>." ++ function_name

/-- `_insertFinalReturnStatement` (ReformulationFunctionStatements.py lines
61-88): an absent body becomes a lone `return None`; a body that does not
already abort gets `return None` appended; an aborting body is unchanged. -/
def _insertFinalReturnStatement (function_statements_body : Option (List Stmt)) : List Stmt :=
  match function_statements_body with
  | none => [Stmt.statementReturn (NExpr.constantRef NConst.noneC)]
  | some stmts =>
      if seqIsAborting stmts then stmts
      else stmts ++ [Stmt.statementReturn (NExpr.constantRef NConst.noneC)]

/-- The two kinds `detectFunctionBodyKind` can yield for a `FunctionDef` in
`buildFunctionNode`. -/
inductive DetectedFunctionKind where
  | functionKind
  | generatorKind
deriving DecidableEq, Repr

/-- The body-statements part of `buildFunctionNode`
(ReformulationFunctionStatements.py lines 139-164): generators keep the raw
statement body as built; plain functions pass it through
`_insertFinalReturnStatement`. -/
def buildFunctionBodyStatements (function_kind : DetectedFunctionKind)
    (raw : Option (List Stmt)) : Option (List Stmt) :=
  match function_kind with
  | .generatorKind => raw
  | .functionKind => some (_insertFinalReturnStatement raw)

/-- The body-statements part of `buildAsyncFunctionNode`
(ReformulationFunctionStatements.py lines 254-273): the coroutine body always
passes through `_insertFinalReturnStatement`. -/
def buildAsyncFunctionBodyStatements (raw : Option (List Stmt)) : List Stmt :=
  _insertFinalReturnStatement raw

/-- The scope data of every function scope of a chain, innermost first. -/
def chainScopes : ScopeChain → List FuncScopeData
  | .moduleScope _ => []
  | .funcScope s p => s :: chainScopes p

/-! Concrete fixtures used by witnesses and counterexamples. -/

def nameP : String := "p"
def nameX : String := "x"
def nameY : String := "y"
def nameF : String := "f"
def nameM : String := "m"
def nameBigC : String := "C"
def nameOuter : String := "outer"
def nameInner : String := "inner"
def pnameA : String := "a"
def pnameB : String := "b"
def pnameC : String := "c"

/-- A parameter spec with no parameters at all. -/
def specEmpty : ParameterSpec :=
  { name := "f", normal_args := [], kw_only_args := [], list_star_arg := none,
    dict_star_arg := none, default_count := 0 }

/-- A plain function body with an empty parameter spec and a non-raising body. -/
def bodyPlain : FunctionBody :=
  { name := "f", kind := BodyKind.functionBody, parameters := specEmpty,
    body_may_raise := false }

/-- A creation of `bodyPlain` with no defaults, keyword-defaults or
annotations. -/
def gateFC : ExpressionFunctionCreation :=
  { function_body := bodyPlain, defaults := [], kw_defaults := none, annotations := none }

/-- Creation whose second positional default always raises; the first default
has observable side effects. -/
def c1CreationA : ExpressionFunctionCreation :=
  { function_body := bodyPlain, defaults := [NExpr.effectful 1, NExpr.raising 2],
    kw_defaults := none, annotations := none }

/-- Creation with one effectful positional default and always-raising keyword
defaults. -/
def c1CreationB : ExpressionFunctionCreation :=
  { function_body := bodyPlain, defaults := [NExpr.effectful 1],
    kw_defaults := some (NExpr.raising 2), annotations := none }

/-- Creation with one effectful positional default, effectful keyword defaults
and always-raising annotations. -/
def c1CreationC : ExpressionFunctionCreation :=
  { function_body := bodyPlain, defaults := [NExpr.effectful 1],
    kw_defaults := some (NExpr.effectful 3), annotations := some (NExpr.raising 5) }

/-- The spec's call-matching example: parameter spec `(a, b, c=<default>)`. -/
def spec3 : ParameterSpec :=
  { name := "g", normal_args := [pnameA, pnameB, pnameC], kw_only_args := [],
    list_star_arg := none, dict_star_arg := none, default_count := 1 }

def body3 : FunctionBody :=
  { name := "g", kind := BodyKind.functionBody, parameters := spec3,
    body_may_raise := false }

def creation3 : ExpressionFunctionCreation :=
  { function_body := body3, defaults := [], kw_defaults := none, annotations := none }

def argOne : NExpr := NExpr.constantRef (NConst.intC 1)
def argTwo : NExpr := NExpr.constantRef (NConst.intC 2)
def argThree : NExpr := NExpr.constantRef (NConst.intC 3)
def argFour : NExpr := NExpr.constantRef (NConst.intC 4)

/-- A plain (non-generator) function owning a parameter `p` and a local `x`. -/
def relFunction : FunctionScopeF :=
  { scope_id := 1, is_generator := false,
    providing := [MVar.parameterVar 1 nameP, MVar.localVar 1 nameX],
    body := [Stmt.plainStatement 0] }

/-- A generator owning a parameter `p` and locals `x`, `y`. -/
def relGenerator : FunctionScopeF :=
  { scope_id := 2, is_generator := true,
    providing := [MVar.parameterVar 2 nameP, MVar.localVar 2 nameX, MVar.localVar 2 nameY],
    body := [Stmt.plainStatement 0] }

/-- The spec's release example: a function owning locals `x, y` in that
declaration order and nothing else. -/
def relXY : FunctionScopeF :=
  { scope_id := 3, is_generator := false,
    providing := [MVar.localVar 3 nameX, MVar.localVar 3 nameY],
    body := [Stmt.plainStatement 0] }

/-- Outermost function scope owning `x`. -/
def outerScope : FuncScopeData :=
  { scope_id := 3, unoptimized := false, providing := [MVar.localVar 3 nameX], taken := [] }

/-- Intermediate function scope between the reference and the owner of `x`. -/
def middleScope : FuncScopeData :=
  { scope_id := 2, unoptimized := false, providing := [], taken := [] }

/-- Innermost (reference) function scope. -/
def innerScope : FuncScopeData :=
  { scope_id := 1, unoptimized := false, providing := [], taken := [] }

/-- The provider chain of `innerScope`: middle, then outer, then the module. -/
def chainFromMiddle : ScopeChain :=
  ScopeChain.funcScope middleScope (ScopeChain.funcScope outerScope (ScopeChain.moduleScope 0))

/-- The full three-level chain with the reference scope innermost. -/
def closureChain : ScopeChain :=
  ScopeChain.funcScope innerScope chainFromMiddle

/-- An unoptimized scope (e.g. containing `exec` or a star import) directly
below the module. -/
def unoptScope : FuncScopeData :=
  { scope_id := 5, unoptimized := true, providing := [], taken := [] }

/-- Claim C1 (code bug exhibited): `computeExpression` of the deferred-binding
expression never accumulates already-scanned positional defaults as side
effects — the defaults loop leaves `side_effects` empty and only a passing
keyword-defaults expression is ever appended. Hence: when the second default
always raises, the rewrite is the bare raising expression and the side effects
of the first (effectful) default are dropped; when the keyword-defaults raise,
the earlier positional default is likewise dropped; and when the annotations
raise, exactly the keyword-defaults (and no positional default) are preserved.
The claim and the spec state that every sub-expression evaluated strictly
before the raise is preserved. -/
theorem computeExpression_drops_prior_side_effects :
    c1CreationA.computeExpression = ComputeResult.newRaise (NExpr.raising 2) ∧
    c1CreationB.computeExpression = ComputeResult.newRaise (NExpr.raising 2) ∧
    c1CreationC.computeExpression =
      ComputeResult.newRaise (NExpr.withSideEffects [NExpr.effectful 3] (NExpr.raising 5)) ∧
    (NExpr.effectful 1).mayHaveSideEffects = true := by
  refine ⟨rfl, rfl, rfl, ?_⟩
  simp [NExpr.mayHaveSideEffects]

/-- Claim C2 (counterexample): a call carrying a provably empty constant
keyword dict on a creation with an empty parameter spec is returned untouched,
although the claim says such a call proceeds to parameter matching — the same
call without the keyword argument does proceed and becomes a direct call. -/
theorem computeExpressionCall_empty_kw_untouched :
    gateFC.computeExpressionCall (some (NExpr.makeTuple []))
      (some (NExpr.constantRef NConst.emptyDict)) = CallOutcome.untouched ∧
    gateFC.computeExpressionCall (some (NExpr.makeTuple [])) none =
      CallOutcome.directCall [] := by
  constructor
  · rfl
  · rfl

/-- Parameter matching always ends in a direct call or a diagnostic raise
rewrite, whatever `matchCall` decides. -/
theorem matchAndRewrite_proceeded (fc : ExpressionFunctionCreation) (ca : Option NExpr)
    (l : List NExpr) : (matchAndRewrite fc ca l).proceeded = true := by
  unfold matchAndRewrite
  cases h : matchCall fc.getName fc.function_body.parameters.getArgumentNames
      fc.function_body.parameters.getStarListArgumentName
      fc.function_body.parameters.getStarDictArgumentName
      fc.function_body.parameters.getDefaultCount l with
  | error e => simp [h, CallOutcome.proceeded]
  | ok d => simp [h, CallOutcome.proceeded]

/-- Claim C2 (amended): the call-site gate of `computeExpressionCall` proceeds
to parameter matching iff there is no keyword argument at all — even a
provably empty constant keyword dict leaves the call untouched, because of the
source's second unconditional `if call_kw is not None` check — and the
positional arguments are absent, a constant reference, or a literal tuple; a
positional-arguments expression of any other shape trips the source's
`assert False` instead of being returned untouched. -/
theorem computeExpressionCall_gate (fc : ExpressionFunctionCreation)
    (call_args call_kw : Option NExpr) :
    (call_kw.isSome = true →
      fc.computeExpressionCall call_args call_kw = CallOutcome.untouched) ∧
    (call_kw = none → argsShapeOk call_args = true →
      (fc.computeExpressionCall call_args call_kw).proceeded = true) ∧
    (call_kw = none → argsShapeOk call_args = false →
      fc.computeExpressionCall call_args call_kw = CallOutcome.internalAbort) := by
  refine ⟨?_, ?_, ?_⟩
  · intro h
    cases call_kw with
    | none => simp at h
    | some kw =>
        show (if kw.isExpressionConstantRef = false ∨ kw.getConstant ≠ some NConst.emptyDict
              then CallOutcome.untouched else CallOutcome.untouched) = CallOutcome.untouched
        split <;> rfl
  · intro hkw hshape
    subst hkw
    cases call_args with
    | none => exact matchAndRewrite_proceeded fc none []
    | some a =>
        have hc : a.isExpressionConstantRef = true ∨ a.isExpressionMakeTuple = true := by
          simpa [argsShapeOk, Bool.or_eq_true] using hshape
        show (if a.isExpressionConstantRef = true ∨ a.isExpressionMakeTuple = true
              then matchAndRewrite fc (some a) a.getIterationValues
              else CallOutcome.internalAbort).proceeded = true
        rw [if_pos hc]
        exact matchAndRewrite_proceeded fc (some a) a.getIterationValues
  · intro hkw hshape
    subst hkw
    cases call_args with
    | none => simp [argsShapeOk] at hshape
    | some a =>
        have hc : ¬(a.isExpressionConstantRef = true ∨ a.isExpressionMakeTuple = true) := by
          simp only [argsShapeOk, Bool.or_eq_false_iff] at hshape
          simp [hshape.1, hshape.2]
        show (if a.isExpressionConstantRef = true ∨ a.isExpressionMakeTuple = true
              then matchAndRewrite fc (some a) a.getIterationValues
              else CallOutcome.internalAbort) = CallOutcome.internalAbort
        rw [if_neg hc]

/-- Claim C2 (witness): the amended gate applied to the empty-keyword-dict
call: it carries a keyword argument, so the call is untouched. -/
theorem computeExpressionCall_gate_witness :
    (some (NExpr.constantRef NConst.emptyDict) : Option NExpr).isSome = true ∧
    gateFC.computeExpressionCall (some (NExpr.makeTuple []))
      (some (NExpr.constantRef NConst.emptyDict)) = CallOutcome.untouched :=
  ⟨rfl, (computeExpressionCall_gate gateFC (some (NExpr.makeTuple []))
      (some (NExpr.constantRef NConst.emptyDict))).1 rfl⟩

/-- Claim C3: once the argument-shape gate passes (no keyword argument, literal
positional tuple), matching against the callee's parameter spec yields exactly
one of two outcomes — a `TooManyArguments`-style raise rewrite preserving
precisely the original argument expressions as side effects, or a direct call
carrying one matched value per declared parameter — never an untouched call
and never an abort. The spec's concrete example is pinned: spec
`(a, b, c=<default>)` with `(1, 2)` binds `{a:1, b:2, c:<default>}` in
declared order; with `(1, 2, 3, 4)` it rewrites to the diagnostic raise with
all four argument expressions preserved. -/
theorem computeExpressionCall_matching_outcomes (fc : ExpressionFunctionCreation)
    (args_tuple : List NExpr) :
    ((∃ e, fc.computeExpressionCall (some (NExpr.makeTuple args_tuple)) none =
        CallOutcome.raiseRewrite args_tuple e)
     ∨ (∃ values, fc.computeExpressionCall (some (NExpr.makeTuple args_tuple)) none =
          CallOutcome.directCall values ∧
          values.length = fc.function_body.parameters.getAllNames.length)) ∧
    creation3.computeExpressionCall (some (NExpr.makeTuple [argOne, argTwo])) none =
      CallOutcome.directCall
        [MatchedValue.argValue argOne, MatchedValue.argValue argTwo,
         MatchedValue.defaultValue] ∧
    creation3.computeExpressionCall
        (some (NExpr.makeTuple [argOne, argTwo, argThree, argFour])) none =
      CallOutcome.raiseRewrite [argOne, argTwo, argThree, argFour]
        TooManyArguments.tooManyPositional := by
  refine ⟨?_, rfl, rfl⟩
  have hred : fc.computeExpressionCall (some (NExpr.makeTuple args_tuple)) none =
      matchAndRewrite fc (some (NExpr.makeTuple args_tuple)) args_tuple := rfl
  rw [hred]
  unfold matchAndRewrite
  cases h : matchCall fc.getName fc.function_body.parameters.getArgumentNames
      fc.function_body.parameters.getStarListArgumentName
      fc.function_body.parameters.getStarDictArgumentName
      fc.function_body.parameters.getDefaultCount args_tuple with
  | error e =>
      left
      refine ⟨e, ?_⟩
      simp [h, extractPreCallSideEffects, NExpr.getIterationValues]
  | ok d =>
      right
      refine ⟨fc.function_body.parameters.getAllNames.map
          (fun nm => (d.lookup nm).getD MatchedValue.defaultValue), ?_, ?_⟩
      · simp [h]
      · simp

/-- Claim C4: `getCallCost` is exactly the claim's cost model — None with
experimental mode off, None for generator and class bodies, 60 when the callee
body may raise, 20 otherwise — and `ExpressionFunctionCall.computeExpression`
in-lines the direct call into an outline iff the cost is not None and strictly
below 50. -/
theorem getCallCost_matches_claim (fc : ExpressionFunctionCreation) (experimental : Bool)
    (values : List NExpr) :
    fc.getCallCost experimental = callCostClaim experimental fc.function_body ∧
    ((ExpressionFunctionCall.mk fc values).computeExpression experimental =
        InlineDecision.inlinedOutline ↔
      ∃ c, fc.getCallCost experimental = some c ∧ c < 50) := by
  constructor
  · rcases fc with ⟨body, ds, kw, ans⟩
    rcases body with ⟨nm, k, ps, mr⟩
    cases experimental <;> cases k <;> cases mr <;> rfl
  · unfold ExpressionFunctionCall.computeExpression
    cases h : fc.getCallCost experimental with
    | none => simp [h]
    | some cost =>
        by_cases hc : cost < 50
        · simp [h, hc]
        · simp [h, hc]

/-- Claim C4 (witness): the cost model and the inlining criterion evaluated on
a concrete plain-function creation under experimental mode. -/
theorem getCallCost_matches_claim_witness :
    gateFC.getCallCost true = callCostClaim true gateFC.function_body ∧
    ((ExpressionFunctionCall.mk gateFC []).computeExpression true =
        InlineDecision.inlinedOutline ↔
      ∃ c, gateFC.getCallCost true = some c ∧ c < 50) :=
  getCallCost_matches_claim gateFC true []

/-- Claim C5: the call-site optimization pass is idempotent — applying it
twice to any tree yields the same tree as applying it once. In particular an
inlined call site is an outline holding no further creation callee, so
re-application finds nothing new to rewrite. -/
theorem optimizePass_idempotent (experimental : Bool) (t : OTree) :
    optimizePass experimental (optimizePass experimental t) = optimizePass experimental t := by
  induction t with
  | atom i => rfl
  | seq a b iha ihb => simp [optimizePass, iha, ihb]
  | outline a b iha ihb => simp [optimizePass, iha, ihb]
  | funcCall f cb arg ihcb iharg =>
      rw [optimizePass]
      cases h : f.getCallCost experimental with
      | none => simp [optimizePass, h, ihcb, iharg]
      | some cost =>
          by_cases hc : cost < 50
          · simp [optimizePass, h, hc, ihcb, iharg]
          · simp [optimizePass, h, hc, ihcb, iharg]

/-- Claim C6 (counterexample): for a plain (non-generator) function the
release collector keeps parameter variables — `relFunction` owns parameter `p`
and local `x`, and the collected list is `[p, x]`, with `p` a parameter
variable; the claim says the collected variables are "Local and not
Parameter". The parameter filter in the source applies to generators only. -/
theorem releases_include_parameter_variables :
    releasesFor relFunction = [MVar.parameterVar 1 nameP, MVar.localVar 1 nameX] ∧
    (MVar.parameterVar 1 nameP).isParameterVariable = true := by
  exact ⟨rfl, rfl⟩

/-- Claim C6 (amended): the release injector collects, in declaration
(providing) order, exactly the variables that are local variables (parameter
variables included — they count as local), owned directly by the body, and not
parameter variables of a generator body; when the collection is non-empty the
existing statement body is wrapped in a try/finally whose finally part
releases each collected variable once in that order, and otherwise the body is
untouched. The generator fixture shows generator parameters never appear, and
the spec's `x, y` example yields exactly `[release x, release y]`. -/
theorem addFunctionVariableReleases_spec (function : FunctionScopeF) :
    releasesFor function = function.providing.filter (fun v =>
      v.isLocalVariable && ((v.getOwner == function.scope_id) &&
        !(function.is_generator && v.isParameterVariable))) ∧
    (releasesFor function ≠ [] →
      (addFunctionVariableReleases function).body =
        [Stmt.tryFinallyStatement function.body
          ((releasesFor function).map Stmt.statementReleaseVariable)]) ∧
    (releasesFor function = [] → addFunctionVariableReleases function = function) ∧
    releasesFor relGenerator = [MVar.localVar 2 nameX, MVar.localVar 2 nameY] ∧
    releasesFor relXY = [MVar.localVar 3 nameX, MVar.localVar 3 nameY] := by
  refine ⟨?_, ?_, ?_, rfl, rfl⟩
  · unfold releasesFor FunctionScopeF.getLocalVariables
    rw [List.filter_filter]
    congr 1
    funext v
    rw [Bool.and_comm]
  · intro hne
    have hmap : ((releasesFor function).map Stmt.statementReleaseVariable).isEmpty = false := by
      cases hr : releasesFor function with
      | nil => exact absurd hr hne
      | cons a l => simp
    unfold addFunctionVariableReleases
    simp only [hmap, Bool.false_eq_true, if_false, makeTryFinallyStatement]
  · intro hz
    unfold addFunctionVariableReleases
    simp [hz]

/-- Claim C6 (witness): the amended wrapping applied to the concrete plain
function owning `p` and `x`: its release list is non-empty, and its body
becomes the try/finally region over the release statements. -/
theorem addFunctionVariableReleases_spec_witness :
    releasesFor relFunction ≠ [] ∧
    (addFunctionVariableReleases relFunction).body =
      [Stmt.tryFinallyStatement relFunction.body
        ((releasesFor relFunction).map Stmt.statementReleaseVariable)] :=
  ⟨by decide, (addFunctionVariableReleases_spec relFunction).2.1 (by decide)⟩

/-- Claim C7 (counterexample): resolving `x` at the innermost scope of the
three-level chain (inner → middle → outer, with outer owning `x`) returns the
variable owned by outer, records it in the inner (reference) scope's taken set
and providing map — but the intermediate middle scope keeps an empty taken set
and an empty providing map, although the claim says every scope strictly
between the reference and the owner lists the variable after resolution. -/
theorem closure_resolution_skips_intermediate_scope :
    (resolveReferenceInChain nameX closureChain).1 = MVar.localVar 3 nameX ∧
    ((chainScopes (resolveReferenceInChain nameX closureChain).2).map FuncScopeData.taken) =
      [[MVar.localVar 3 nameX], [], []] ∧
    ((chainScopes (resolveReferenceInChain nameX closureChain).2).map FuncScopeData.providing) =
      [[MVar.localVar 3 nameX], [], [MVar.localVar 3 nameX]] := by
  exact ⟨rfl, rfl, rfl⟩

/-- Claim C7 (amended): when a reference resolves through the closure chain to
a non-module variable, only the reference scope itself records the result —
the variable is appended to its taken set and re-exposed in its providing map
— while every other scope of the chain, in particular every intermediate scope
on the path to the owner, is left unchanged (the closure walk through them
performs no mutation). -/
theorem getVariableForReference_records_only_reference_scope (s : FuncScopeData)
    (p : ScopeChain) (variable_name : String)
    (h1 : s.hasProvidedVariable variable_name = false)
    (h2 : (getVariableForClosureChain variable_name p).isModuleVariable = false) :
    resolveReferenceInChain variable_name (ScopeChain.funcScope s p) =
      (getVariableForClosureChain variable_name p,
       ScopeChain.funcScope
         { s with taken := s.taken ++ [getVariableForClosureChain variable_name p],
                  providing := s.providing ++ [getVariableForClosureChain variable_name p] }
         p) := by
  unfold resolveReferenceInChain getVariableForReference getClosureVariable
    FuncScopeData.registerProvidedVariable
  simp [h1, h2]

/-- Claim C7 (witness): the amended statement applied at the three-level
chain: inner does not provide `x`, the closure result is outer's local `x`,
and resolution rewrites only the inner scope, leaving the rest of the chain
(middle included) as it was. -/
theorem getVariableForReference_records_only_reference_scope_witness :
    innerScope.hasProvidedVariable nameX = false ∧
    (getVariableForClosureChain nameX chainFromMiddle).isModuleVariable = false ∧
    resolveReferenceInChain nameX (ScopeChain.funcScope innerScope chainFromMiddle) =
      (getVariableForClosureChain nameX chainFromMiddle,
       ScopeChain.funcScope
         { innerScope with
             taken := innerScope.taken ++ [getVariableForClosureChain nameX chainFromMiddle],
             providing :=
               innerScope.providing ++ [getVariableForClosureChain nameX chainFromMiddle] }
         chainFromMiddle) :=
  ⟨rfl, rfl,
    getVariableForReference_records_only_reference_scope innerScope chainFromMiddle nameX
      rfl rfl⟩

/-- Claim C8: in a scope flagged unoptimized, a reference to a name that is
not locally provided and whose closure search ends at a module variable
resolves to a `MaybeLocalVariable` owned by the referencing scope and wrapping
that module variable — not to the module variable itself (the result is not a
module variable). -/
theorem getVariableForReference_unoptimized_maybe_local (s : FuncScopeData)
    (p : ScopeChain) (variable_name : String)
    (h1 : s.unoptimized = true)
    (h2 : s.hasProvidedVariable variable_name = false)
    (h3 : (getVariableForClosureChain variable_name p).isModuleVariable = true) :
    (getVariableForReference s p variable_name).1 =
      MVar.maybeLocalVar s.scope_id (getVariableForClosureChain variable_name p) ∧
    (getVariableForReference s p variable_name).1.isModuleVariable = false := by
  cases hv : getVariableForClosureChain variable_name p with
  | moduleVar o n =>
      unfold getVariableForReference getClosureVariable
      rw [hv]
      simp [h1, h2, MVar.isModuleVariable]
  | parameterVar o n =>
      rw [hv] at h3
      simp [MVar.isModuleVariable] at h3
  | localVar o n =>
      rw [hv] at h3
      simp [MVar.isModuleVariable] at h3
  | maybeLocalVar o w =>
      rw [hv] at h3
      simp [MVar.isModuleVariable] at h3

/-- Claim C8 (witness): the unoptimized scope directly below the module,
referencing the never-bound name `y`, yields the maybe-local wrapper around
the module global. -/
theorem getVariableForReference_unoptimized_maybe_local_witness :
    unoptScope.unoptimized = true ∧
    unoptScope.hasProvidedVariable nameY = false ∧
    (getVariableForClosureChain nameY (ScopeChain.moduleScope 0)).isModuleVariable = true ∧
    ((getVariableForReference unoptScope (ScopeChain.moduleScope 0) nameY).1 =
      MVar.maybeLocalVar unoptScope.scope_id
        (getVariableForClosureChain nameY (ScopeChain.moduleScope 0)) ∧
     (getVariableForReference unoptScope (ScopeChain.moduleScope 0) nameY).1.isModuleVariable =
       false) :=
  ⟨rfl, rfl, rfl,
    getVariableForReference_unoptimized_maybe_local unoptScope (ScopeChain.moduleScope 0) nameY
      rfl rfl rfl⟩

/-- Claim C9: the qualified name of a body is its own function name under a
module provider, the provider's qualified name dot-joined with the function
name under a class-body provider, and the provider's qualified name joined
with ".<locals>." under any other function provider; concretely a module-level
`f` gives "f", method `m` of module-level class `C` gives "C.m", and `inner`
nested directly in `outer` gives "outer.<locals>.inner". -/
theorem getFunctionQualname_provider_cases :
    (∀ nm, getFunctionQualname nm QProvider.compiledPythonModule = nm) ∧
    (∀ nm cn p, getFunctionQualname nm (QProvider.expressionClassBody cn p) =
      getFunctionQualname cn p ++ "." ++ nm) ∧
    (∀ nm fn p, getFunctionQualname nm (QProvider.functionBody fn p) =
      getFunctionQualname fn p ++ ".<locals>." ++ nm) ∧
    getFunctionQualname nameF QProvider.compiledPythonModule = "f" ∧
    getFunctionQualname nameM
      (QProvider.expressionClassBody nameBigC QProvider.compiledPythonModule) = "C.m" ∧
    getFunctionQualname nameInner
      (QProvider.functionBody nameOuter QProvider.compiledPythonModule) =
      "outer.<locals>.inner" := by
  refine ⟨fun nm => rfl, fun nm cn p => rfl, fun nm fn p => rfl, rfl, ?_, ?_⟩
  · decide
  · decide

/-- The abort status of a statements sequence with a statement appended is the
abort status of that last statement. -/
theorem seqIsAborting_append_single (l : List Stmt) (s : Stmt) :
    seqIsAborting (l ++ [s]) = s.isStatementAborting := by
  induction l with
  | nil => rfl
  | cons a l ih =>
      cases l with
      | nil => rfl
      | cons b l2 => simpa [seqIsAborting] using ih

/-- Claim C10: `_insertFinalReturnStatement` always yields a statements
sequence ending in an aborting statement — an absent body becomes a lone
`return None`, a non-aborting body gets `return None` appended, an aborting
body is unchanged; `buildFunctionNode` applies it to every plain function body
and leaves generator bodies untouched, and `buildAsyncFunctionNode` applies it
to every coroutine body. -/
theorem buildFunction_final_return_aborting :
    (∀ raw, seqIsAborting (_insertFinalReturnStatement raw) = true) ∧
    (_insertFinalReturnStatement none =
      [Stmt.statementReturn (NExpr.constantRef NConst.noneC)]) ∧
    (∀ stmts, seqIsAborting stmts = false →
      _insertFinalReturnStatement (some stmts) =
        stmts ++ [Stmt.statementReturn (NExpr.constantRef NConst.noneC)]) ∧
    (∀ stmts, seqIsAborting stmts = true → _insertFinalReturnStatement (some stmts) = stmts) ∧
    (∀ raw, buildFunctionBodyStatements DetectedFunctionKind.functionKind raw =
      some (_insertFinalReturnStatement raw)) ∧
    (∀ raw, buildFunctionBodyStatements DetectedFunctionKind.generatorKind raw = raw) ∧
    (∀ raw, buildAsyncFunctionBodyStatements raw = _insertFinalReturnStatement raw) := by
  refine ⟨?_, rfl, ?_, ?_, fun raw => rfl, fun raw => rfl, fun raw => rfl⟩
  · intro raw
    cases raw with
    | none => rfl
    | some stmts =>
        unfold _insertFinalReturnStatement
        by_cases h : seqIsAborting stmts = true
        · simp [h]
        · have h2 : seqIsAborting stmts = false := by
            cases hv : seqIsAborting stmts with
            | false => rfl
            | true => exact absurd hv h
          simp [h2, seqIsAborting_append_single, Stmt.isStatementAborting]
  · intro stmts h
    unfold _insertFinalReturnStatement
    simp [h]
  · intro stmts h
    unfold _insertFinalReturnStatement
    simp [h]

/-- Claim C10 (witness): a one-statement non-aborting body gets `return None`
appended by the builder. -/
theorem buildFunction_final_return_aborting_witness :
    seqIsAborting [Stmt.plainStatement 7] = false ∧
    _insertFinalReturnStatement (some [Stmt.plainStatement 7]) =
      [Stmt.plainStatement 7] ++ [Stmt.statementReturn (NExpr.constantRef NConst.noneC)] :=
  ⟨rfl, buildFunction_final_return_aborting.2.2.1 [Stmt.plainStatement 7] rfl⟩

end Nuitka
